import Mathlib

/-!
Shallow embedding of fcorrea/egles, `examples/es2/xorg/triangle`
(files `init.go` and `shader.go`).

The program is a demo that opens an X11 window, creates an EGL context,
compiles two GLSL shaders, and redraws a triangle on a fixed-rate ticker
until paused or terminated.  The embedding models each Go function as a
pure Lean function; interactions with the external GL/EGL/X libraries are
represented by explicit action traces, and the values those libraries
return (error codes, compile statuses, created handles) are passed in as
parameters.
-/

namespace Egles

/-- `const FRAMES_PER_SECOND = 24` from `init.go`. -/
def FRAMES_PER_SECOND : Nat := 24

/-- The `renderLoop` struct from `init.go`: the ticker is modelled by its
period in nanoseconds (`time.Duration` counts nanoseconds); the two
unbuffered channels carry no data relevant to the claims. -/
structure renderLoop where
  tickerPeriodNs : Nat
deriving DecidableEq, Repr

/-- `newRenderLoop(fps)` from `init.go`: `time.NewTicker(time.Duration(1e9 / fps))`.
In Go the untyped constant `1e9` converts to `int` (the type of `fps`), so
`1e9 / fps` is truncating integer division. -/
def newRenderLoop (fps : Nat) : renderLoop :=
  { tickerPeriodNs := 1000000000 / fps }

/-- `check()` from `init.go`: reads the GL error code (here passed in as
the value `gl.GetError()` returned) and panics when it is nonzero.  A panic
is modelled as `Except.error` carrying the formatted message; a normal
return is `Except.ok ()` and touches no state. -/
def check (errorCode : Nat) : Except String Unit :=
  if errorCode ≠ 0 then
    Except.error ("An error occurred! Code: 0x" ++ String.mk (Nat.toDigits 16 errorCode))
  else
    Except.ok ()

/-- The three events `renderLoop.Run` can select in one loop iteration:
a value on the pause channel, a value on the terminate channel, or a
ticker tick. -/
inductive Event
  | pause
  | terminate
  | tick
deriving DecidableEq, Repr

/-- Observable actions of one iteration of `renderLoop.Run`:
`ticker.Stop()`, the acknowledgement sends (`l.pause <- 0`,
`l.terminate <- 0`), the three EGL release calls of `cleanup()`,
`draw(...)` and `egl.SwapBuffers(...)`. -/
inductive GLAction
  | tickerStop
  | pauseAck (v : Int)
  | destroySurface
  | destroyContext
  | terminateDisplay
  | terminateAck (v : Int)
  | draw
  | swapBuffers
deriving DecidableEq, Repr

/-- State of the render loop relevant to the claims: whether the ticker is
still delivering ticks (`time.Ticker.Stop` stops delivery and nothing in
the program ever restarts it). -/
structure LoopState where
  tickerRunning : Bool
deriving DecidableEq, Repr

/-- The state the loop starts in: the ticker created by `newRenderLoop`
is running. -/
def initialLoopState : LoopState := { tickerRunning := true }

/-- `cleanup()` from `init.go`: destroys the EGL surface and context and
terminates the display, in that order. -/
def cleanup : List GLAction :=
  [GLAction.destroySurface, GLAction.destroyContext, GLAction.terminateDisplay]

/-- One iteration of the `select` in `renderLoop.Run`:
* `case <-l.pause`: `l.ticker.Stop(); l.pause <- 0`;
* `case <-l.terminate`: `cleanup(); l.terminate <- 0`;
* `case <-l.ticker.C`: `draw(currWidth, currHeight); egl.SwapBuffers(...)`.
Returns the successor state and the list of actions performed. -/
def runStep (s : LoopState) : Event → LoopState × List GLAction
  | Event.pause => ({ tickerRunning := false }, [GLAction.tickerStop, GLAction.pauseAck 0])
  | Event.terminate => (s, cleanup ++ [GLAction.terminateAck 0])
  | Event.tick => (s, [GLAction.draw, GLAction.swapBuffers])

/-- Which events can actually occur in a given state: a tick can only be
received while the ticker is running; the pause and terminate channels can
always receive. -/
def eventEnabled (s : LoopState) : Event → Bool
  | Event.tick => s.tickerRunning
  | Event.pause => true
  | Event.terminate => true

/-- Run the loop over a sequence of events, accumulating all actions. -/
def runEvents : LoopState → List Event → LoopState × List GLAction
  | s, [] => (s, [])
  | s, e :: es =>
    let step := runStep s e
    let rest := runEvents step.1 es
    (rest.1, step.2 ++ rest.2)

/-- An event sequence is valid from a state when each event is enabled in
the state it occurs in. -/
def validFrom : LoopState → List Event → Bool
  | _, [] => true
  | s, e :: es => eventEnabled s e && validFrom (runStep s e).1 es

/-- POSIX signal number of SIGTERM. -/
def SIGTERM : Nat := 15

/-- POSIX signal number of SIGINT. -/
def SIGINT : Nat := 2

/-- An `os.Signal` value: either a concrete `syscall.Signal` (a number) or
some other implementation of the `os.Signal` interface. -/
inductive OsSignal
  | syscall (n : Nat)
  | other (name : String)
deriving DecidableEq, Repr

/-- `(*sigterm).HandleSignal` from `init.go`: the outer type switch keeps
only `syscall.Signal`; the inner switch calls `application.Exit()` for
`SIGTERM` and `SIGINT` and falls through (does nothing) otherwise.
Returns `true` exactly when `application.Exit()` is called. -/
def HandleSignal : OsSignal → Bool
  | OsSignal.syscall n => n == SIGTERM || n == SIGINT
  | OsSignal.other _ => false

/-- Top-level steps of `main` from `init.go`, in program order: the four
`log.Printf` lines of `printInfo`, then `application.Register`,
`application.InstallSignalHandler`, `application.Run`. -/
inductive MainAction
  | logRenderer
  | logVersion
  | logVendor
  | logExtensions
  | registerRenderLoop
  | installSignalHandler
  | runApp
deriving DecidableEq, Repr

/-- `printInfo()` from `init.go`: logs GL_RENDERER, GL_VERSION, GL_VENDOR
and GL_EXTENSIONS, in that order. -/
def printInfo : List MainAction :=
  [MainAction.logRenderer, MainAction.logVersion, MainAction.logVendor,
   MainAction.logExtensions]

/-- `main()` from `init.go` as a trace of top-level steps, parametrised by
the parsed value of the `-info` flag: `if *info { printInfo() }`, then
register the render loop, install the signal handler, and run. -/
def mainTrace (info : Bool) : List MainAction :=
  (if info then printInfo else []) ++
    [MainAction.registerRenderLoop, MainAction.installSignalHandler, MainAction.runApp]

/-- Whether a `main` step is one of the four `printInfo` log lines. -/
def isLogAction : MainAction → Bool
  | MainAction.logRenderer => true
  | MainAction.logVersion => true
  | MainAction.logVendor => true
  | MainAction.logExtensions => true
  | _ => false

/-- Steps of `initialize()` from `init.go` (the `!raspberry` build):
`xgbutil.NewConn()`, and on error `log.Fatal(err)` (process exit);
otherwise `mousebind.Initialize`, `newWindow`, `go xevent.Main`,
`xorg.Initialize`. -/
inductive InitAction
  | newConn
  | logFatal
  | mousebindInit
  | newWindow
  | startXEventMain
  | xorgInit
deriving DecidableEq, Repr

/-- `initialize()` from `init.go` as a trace, parametrised by whether
`xgbutil.NewConn()` succeeds.  `log.Fatal` terminates the process, so on
failure nothing follows it.  (The Go name is a reserved word in Lean,
hence the name `initSteps`.) -/
def initSteps (connOk : Bool) : List InitAction :=
  InitAction.newConn ::
    (if connOk then
      [InitAction.mousebindInit, InitAction.newWindow, InitAction.startXEventMain,
       InitAction.xorgInit]
    else
      [InitAction.logFatal])

/-- GL enum `GL_FRAGMENT_SHADER`. -/
def FRAGMENT_SHADER : Nat := 0x8B30

/-- GL enum `GL_VERTEX_SHADER`. -/
def VERTEX_SHADER : Nat := 0x8B31

/-- GL enum `GL_COMPILE_STATUS`. -/
def COMPILE_STATUS : Nat := 0x8B81

/-- GL enum `GL_LINK_STATUS`. -/
def LINK_STATUS : Nat := 0x8B82

/-- The status value the graphics API stores in `COMPILE_STATUS` /
`LINK_STATUS` when compilation or linking failed: `GL_FALSE`, i.e. `0`
(success stores `GL_TRUE`, i.e. `1`). -/
def GL_FALSE : Int := 0

/-- GL calls made by the shader helpers in `shader.go`. -/
inductive ShaderCall
  | createShader (kind : Nat)
  | shaderSource
  | compileShader
  | getShaderiv (pname : Nat)
  | getShaderInfoLog
  | createProgram
  | attachShader (h : Nat)
  | linkProgram
  | getProgramiv (pname : Nat)
  | getProgramInfoLog
deriving DecidableEq, Repr

/-- What the GL driver returns to a shader helper: the handle
`gl.CreateShader` hands back, the value `GetShaderiv(COMPILE_STATUS)`
stores, and the `gl.GetError()` values read by the three `check()` calls
of `FragmentShader` (after CreateShader, ShaderSource, CompileShader). -/
structure ShaderEnv where
  createdHandle : Nat
  compileStatus : Int
  errAfterCreate : Nat
  errAfterSource : Nat
  errAfterCompile : Nat
deriving DecidableEq, Repr

/-- What the GL driver returns to `Program`: the handle from
`gl.CreateProgram` and the value `GetProgramiv(LINK_STATUS)` stores. -/
structure ProgramEnv where
  createdProgram : Nat
  linkStatus : Int
deriving DecidableEq, Repr

/-- `FragmentShader(s)` from `shader.go`: CreateShader, check, ShaderSource,
check, CompileShader, check, GetShaderiv(COMPILE_STATUS); when the status
is 0 it additionally retrieves the info log (into a local that is then
dropped); it returns the shader handle.  The three `check()` calls can
panic (`Except.error`); the result pairs the returned handle with the
trace of GL calls. -/
def FragmentShader (env : ShaderEnv) (s : String) :
    Except String (Nat × List ShaderCall) := do
  let shader := env.createdHandle
  let _ ← check env.errAfterCreate
  let _ ← check env.errAfterSource
  let _ ← check env.errAfterCompile
  let statusCalls :=
    if env.compileStatus = GL_FALSE then
      [ShaderCall.getShaderiv COMPILE_STATUS, ShaderCall.getShaderInfoLog]
    else
      [ShaderCall.getShaderiv COMPILE_STATUS]
  pure (shader,
    [ShaderCall.createShader FRAGMENT_SHADER, ShaderCall.shaderSource,
     ShaderCall.compileShader] ++ statusCalls)

/-- `VertexShader(s)` from `shader.go`: same shape as `FragmentShader` but
with no `check()` calls, so it cannot panic; returns the shader handle. -/
def VertexShader (env : ShaderEnv) (s : String) : Nat × List ShaderCall :=
  let shader := env.createdHandle
  let statusCalls :=
    if env.compileStatus = GL_FALSE then
      [ShaderCall.getShaderiv COMPILE_STATUS, ShaderCall.getShaderInfoLog]
    else
      [ShaderCall.getShaderiv COMPILE_STATUS]
  (shader,
    [ShaderCall.createShader VERTEX_SHADER, ShaderCall.shaderSource,
     ShaderCall.compileShader] ++ statusCalls)

/-- `Program(fsh, vsh)` from `shader.go`: CreateProgram, AttachShader twice,
LinkProgram, GetProgramiv(LINK_STATUS); when the status is 0 it retrieves
the program info log (then drops it); returns the program handle.  No
`check()` calls, so it cannot panic. -/
def Program (env : ProgramEnv) (fsh vsh : Nat) : Nat × List ShaderCall :=
  let p := env.createdProgram
  let statusCalls :=
    if env.linkStatus = GL_FALSE then
      [ShaderCall.getProgramiv LINK_STATUS, ShaderCall.getProgramInfoLog]
    else
      [ShaderCall.getProgramiv LINK_STATUS]
  (p,
    [ShaderCall.createProgram, ShaderCall.attachShader fsh,
     ShaderCall.attachShader vsh, ShaderCall.linkProgram] ++ statusCalls)

/-- C1 counterexample: as stated, the claim requires the terminate branch of
`renderLoop.Run` to stop the timer, but the `case <-l.terminate` branch only
calls `cleanup()` and acknowledges: no `ticker.Stop()` occurs there. -/
theorem C1_counterexample :
    GLAction.tickerStop ∉ (runStep initialLoopState Event.terminate).2 := by
  decide

/-- C1 (amended): when a value is received on the terminate channel, the loop
releases the graphics resources (destroys the EGL surface and context and
terminates the display) before acknowledging by sending 0 back on the
terminate channel; it does not stop the timer, whose state is unchanged. -/
theorem C1_terminate_cleanup_before_ack (s : LoopState) :
    ∃ releasing,
      (runStep s Event.terminate).2 = releasing ++ [GLAction.terminateAck 0] ∧
      GLAction.destroySurface ∈ releasing ∧
      GLAction.destroyContext ∈ releasing ∧
      GLAction.terminateDisplay ∈ releasing ∧
      GLAction.tickerStop ∉ (runStep s Event.terminate).2 ∧
      (runStep s Event.terminate).1 = s :=
  ⟨cleanup, rfl, by decide, by decide, by decide,
    (by decide : GLAction.tickerStop ∉ cleanup ++ [GLAction.terminateAck 0]), rfl⟩

/-- C2: every iteration of `renderLoop.Run` selects among exactly three
events — pause, terminate, or a timer tick — and a tick performs exactly
one draw call followed by exactly one buffer swap. -/
theorem C2_three_events_one_draw_one_swap :
    (∀ e : Event, e = Event.pause ∨ e = Event.terminate ∨ e = Event.tick) ∧
    (∀ s : LoopState,
      (runStep s Event.tick).2.count GLAction.draw = 1 ∧
      (runStep s Event.tick).2.count GLAction.swapBuffers = 1 ∧
      (runStep s Event.tick).2 = [GLAction.draw, GLAction.swapBuffers]) := by
  refine ⟨fun e => ?_, fun s => ⟨rfl, rfl, rfl⟩⟩
  cases e
  · exact Or.inl rfl
  · exact Or.inr (Or.inl rfl)
  · exact Or.inr (Or.inr rfl)

/-- C3: `check` panics exactly when the error code returned by
`gl.GetError` is nonzero; on error code 0 it returns normally
(`Except.ok ()`, no state is touched). -/
theorem C3_check_panics_iff_nonzero (errorCode : Nat) :
    ((∃ msg, check errorCode = Except.error msg) ↔ errorCode ≠ 0) ∧
    check 0 = Except.ok () := by
  refine ⟨⟨?_, ?_⟩, rfl⟩
  · rintro ⟨msg, hm⟩ h0
    rw [h0] at hm
    simp [check] at hm
  · intro h
    refine ⟨"An error occurred! Code: 0x" ++ String.mk (Nat.toDigits 16 errorCode), ?_⟩
    simp [check, h]

/-- C4: `newRenderLoop fps` creates a ticker whose period is the truncating
integer quotient `1e9 / fps` nanoseconds; with the default
`FRAMES_PER_SECOND = 24` the period is `41666666` nanoseconds. -/
theorem C4_ticker_period :
    (∀ fps : Nat, (newRenderLoop fps).tickerPeriodNs = 1000000000 / fps) ∧
    FRAMES_PER_SECOND = 24 ∧
    (newRenderLoop FRAMES_PER_SECOND).tickerPeriodNs = 41666666 :=
  ⟨fun _ => rfl, rfl, by decide⟩

/-- C5: `main` emits the GL_RENDERER / GL_VERSION / GL_VENDOR /
GL_EXTENSIONS log lines exactly when the `-info` flag is set, and all of
them occur before `application.Register` (and hence before the render loop
is started by `application.Run`). -/
theorem C5_info_prints_before_loop (info : Bool) :
    ((mainTrace info).any isLogAction = info) ∧
    (((mainTrace info).takeWhile
        (fun a => a != MainAction.registerRenderLoop)).filter isLogAction
      = if info then printInfo else []) ∧
    MainAction.registerRenderLoop ∈ mainTrace info ∧
    MainAction.runApp ∈ mainTrace info := by
  cases info <;> decide

/-- C6: the signal handler calls `application.Exit` exactly when the
received signal is the `syscall.Signal` SIGTERM or SIGINT, and does
nothing for every other signal. -/
theorem C6_exit_iff_sigterm_or_sigint (sg : OsSignal) :
    HandleSignal sg = true ↔
      (sg = OsSignal.syscall SIGTERM ∨ sg = OsSignal.syscall SIGINT) := by
  cases sg with
  | syscall n => simp [HandleSignal, SIGTERM, SIGINT]
  | other name => simp [HandleSignal]

/-- C7: when `xgbutil.NewConn()` fails in `initialize`, the connection is
attempted exactly once (no retry), `log.Fatal` is the last step (the
process terminates immediately), and none of the remaining setup steps are
reached (no recovery). -/
theorem C7_fatal_on_conn_failure :
    (initSteps false).count InitAction.newConn = 1 ∧
    (initSteps false).getLast? = some InitAction.logFatal ∧
    InitAction.mousebindInit ∉ initSteps false ∧
    InitAction.newWindow ∉ initSteps false ∧
    InitAction.startXEventMain ∉ initSteps false ∧
    InitAction.xorgInit ∉ initSteps false := by
  decide

/-- The GL-call trace of a shader helper as a function of the compile
status: the status query, plus the info-log retrieval when the status is
`GL_FALSE`. -/
def fragTrace (cs : Int) : List ShaderCall :=
  [ShaderCall.createShader FRAGMENT_SHADER, ShaderCall.shaderSource,
   ShaderCall.compileShader] ++
    (if cs = GL_FALSE then
      [ShaderCall.getShaderiv COMPILE_STATUS, ShaderCall.getShaderInfoLog]
    else
      [ShaderCall.getShaderiv COMPILE_STATUS])

/-- When the three `gl.GetError()` values read by `check()` are all 0,
`FragmentShader` returns normally with the created handle. -/
theorem fragmentShader_ok :
    ∀ (env : ShaderEnv) (src : String),
      env.errAfterCreate = 0 → env.errAfterSource = 0 → env.errAfterCompile = 0 →
      FragmentShader env src =
        Except.ok (env.createdHandle, fragTrace env.compileStatus)
  | ⟨_, _, _, _, _⟩, _, rfl, rfl, rfl => rfl

/-- C8: each of `FragmentShader`, `VertexShader` and `Program` queries
COMPILE_STATUS / LINK_STATUS and retrieves the info log exactly when the
reported status is `GL_FALSE` (= 0), the value the graphics API stores on
compile/link failure.  For `FragmentShader` the three `check()` calls are
assumed not to panic (GL error 0). -/
theorem C8_status_checks_detect_failure (env : ShaderEnv) (penv : ProgramEnv)
    (src : String) (f v : Nat)
    (h1 : env.errAfterCreate = 0) (h2 : env.errAfterSource = 0)
    (h3 : env.errAfterCompile = 0) :
    (∃ trace, FragmentShader env src = Except.ok (env.createdHandle, trace) ∧
      ShaderCall.getShaderiv COMPILE_STATUS ∈ trace ∧
      (ShaderCall.getShaderInfoLog ∈ trace ↔ env.compileStatus = GL_FALSE)) ∧
    ShaderCall.getShaderiv COMPILE_STATUS ∈ (VertexShader env src).2 ∧
    (ShaderCall.getShaderInfoLog ∈ (VertexShader env src).2 ↔
      env.compileStatus = GL_FALSE) ∧
    ShaderCall.getProgramiv LINK_STATUS ∈ (Program penv f v).2 ∧
    (ShaderCall.getProgramInfoLog ∈ (Program penv f v).2 ↔
      penv.linkStatus = GL_FALSE) := by
  refine ⟨⟨fragTrace env.compileStatus, fragmentShader_ok env src h1 h2 h3,
    ?_, ?_⟩, ?_, ?_, ?_, ?_⟩
  · by_cases hst : env.compileStatus = GL_FALSE <;> simp [fragTrace, hst]
  · by_cases hst : env.compileStatus = GL_FALSE <;> simp [fragTrace, hst]
  · by_cases hst : env.compileStatus = GL_FALSE <;> simp [VertexShader, hst]
  · by_cases hst : env.compileStatus = GL_FALSE <;> simp [VertexShader, hst]
  · by_cases hls : penv.linkStatus = GL_FALSE <;> simp [Program, hls]
  · by_cases hls : penv.linkStatus = GL_FALSE <;> simp [Program, hls]

/-- C8 witness: at a concrete failing compile status (0) and succeeding
link status (1), with all GL error reads 0. -/
theorem C8_status_checks_witness :
    ((⟨5, 0, 0, 0, 0⟩ : ShaderEnv).errAfterCreate = 0 ∧
     (⟨5, 0, 0, 0, 0⟩ : ShaderEnv).errAfterSource = 0 ∧
     (⟨5, 0, 0, 0, 0⟩ : ShaderEnv).errAfterCompile = 0) ∧
    ((∃ trace, FragmentShader ⟨5, 0, 0, 0, 0⟩ "f" = Except.ok (5, trace) ∧
        ShaderCall.getShaderiv COMPILE_STATUS ∈ trace ∧
        (ShaderCall.getShaderInfoLog ∈ trace ↔ (0 : Int) = GL_FALSE)) ∧
      ShaderCall.getShaderiv COMPILE_STATUS ∈ (VertexShader ⟨5, 0, 0, 0, 0⟩ "f").2 ∧
      (ShaderCall.getShaderInfoLog ∈ (VertexShader ⟨5, 0, 0, 0, 0⟩ "f").2 ↔
        (0 : Int) = GL_FALSE) ∧
      ShaderCall.getProgramiv LINK_STATUS ∈ (Program ⟨6, 1⟩ 1 2).2 ∧
      (ShaderCall.getProgramInfoLog ∈ (Program ⟨6, 1⟩ 1 2).2 ↔
        (1 : Int) = GL_FALSE)) :=
  ⟨⟨rfl, rfl, rfl⟩,
    C8_status_checks_detect_failure ⟨5, 0, 0, 0, 0⟩ ⟨6, 1⟩ "f" 1 2 rfl rfl rfl⟩

/-- C9: the three shader helpers return the created handle unconditionally:
for every source string and every compile/link status value, `VertexShader`
and `Program` return their created handle (they cannot panic at all), and
`FragmentShader` returns normally with its created handle whenever its
`check()` calls see GL error 0 — a failed compile or link neither aborts
nor surfaces an error, and the retrieved info log is not part of any
result. -/
theorem C9_handles_returned_unconditionally (env : ShaderEnv)
    (penv : ProgramEnv) (src : String) (f v : Nat)
    (h1 : env.errAfterCreate = 0) (h2 : env.errAfterSource = 0)
    (h3 : env.errAfterCompile = 0) :
    (VertexShader env src).1 = env.createdHandle ∧
    (Program penv f v).1 = penv.createdProgram ∧
    ∃ trace, FragmentShader env src = Except.ok (env.createdHandle, trace) :=
  ⟨rfl, rfl, ⟨fragTrace env.compileStatus, fragmentShader_ok env src h1 h2 h3⟩⟩

/-- C9 witness: concrete environments, including a failing compile status
(0) in both shader helpers and a failing link status in `Program`. -/
theorem C9_handles_witness :
    ((⟨7, 0, 0, 0, 0⟩ : ShaderEnv).errAfterCreate = 0 ∧
     (⟨7, 0, 0, 0, 0⟩ : ShaderEnv).errAfterSource = 0 ∧
     (⟨7, 0, 0, 0, 0⟩ : ShaderEnv).errAfterCompile = 0) ∧
    ((VertexShader ⟨7, 0, 0, 0, 0⟩ "v").1 = 7 ∧
     (Program ⟨9, 0⟩ 1 2).1 = 9 ∧
     ∃ trace, FragmentShader ⟨7, 0, 0, 0, 0⟩ "v" = Except.ok (7, trace)) :=
  ⟨⟨rfl, rfl, rfl⟩,
    C9_handles_returned_unconditionally ⟨7, 0, 0, 0, 0⟩ ⟨9, 0⟩ "v" 1 2 rfl rfl rfl⟩

/-- Once the ticker is stopped, no valid continuation of the loop ever
draws or swaps buffers, and the ticker stays stopped: the pause branch is
the only branch that changes the ticker state, and nothing restarts it. -/
theorem paused_no_draw (s : LoopState) (es : List Event)
    (hs : s.tickerRunning = false) (hv : validFrom s es = true) :
    GLAction.draw ∉ (runEvents s es).2 ∧
    GLAction.swapBuffers ∉ (runEvents s es).2 ∧
    (runEvents s es).1.tickerRunning = false := by
  induction es generalizing s with
  | nil => simp [runEvents, hs]
  | cons e es ih =>
      cases e with
      | pause =>
          have hv2 : validFrom { tickerRunning := false } es = true := by
            simpa [validFrom, eventEnabled, runStep] using hv
          have ih2 := ih { tickerRunning := false } rfl hv2
          simp [runEvents, runStep, ih2.1, ih2.2.1, ih2.2.2]
      | terminate =>
          have hv2 : validFrom s es = true := by
            simpa [validFrom, eventEnabled, runStep] using hv
          have ih2 := ih s hs hv2
          simp [runEvents, runStep, cleanup, ih2.1, ih2.2.1, ih2.2.2]
      | tick =>
          exfalso
          simp [validFrom, eventEnabled, hs] at hv

/-- C10: pausing is permanent.  Receiving a value on the pause channel
stops the ticker; in every valid continuation of the loop from that point
no draw call and no buffer swap ever occurs again, and the ticker remains
stopped (there is no resume mechanism). -/
theorem C10_pause_is_permanent (s : LoopState) (es : List Event)
    (hv : validFrom (runStep s Event.pause).1 es = true) :
    GLAction.tickerStop ∈ (runStep s Event.pause).2 ∧
    (runStep s Event.pause).1.tickerRunning = false ∧
    GLAction.draw ∉ (runEvents (runStep s Event.pause).1 es).2 ∧
    GLAction.swapBuffers ∉ (runEvents (runStep s Event.pause).1 es).2 ∧
    (runEvents (runStep s Event.pause).1 es).1.tickerRunning = false := by
  have h := paused_no_draw (runStep s Event.pause).1 es rfl hv
  exact ⟨(by decide : GLAction.tickerStop ∈
      [GLAction.tickerStop, GLAction.pauseAck 0]), rfl, h.1, h.2.1, h.2.2⟩

/-- C10 witness: after a pause in the initial state, the continuation
[terminate, pause] is valid and contains no draw and no swap. -/
theorem C10_pause_witness :
    validFrom (runStep initialLoopState Event.pause).1
        [Event.terminate, Event.pause] = true ∧
    (GLAction.tickerStop ∈ (runStep initialLoopState Event.pause).2 ∧
     (runStep initialLoopState Event.pause).1.tickerRunning = false ∧
     GLAction.draw ∉
       (runEvents (runStep initialLoopState Event.pause).1
         [Event.terminate, Event.pause]).2 ∧
     GLAction.swapBuffers ∉
       (runEvents (runStep initialLoopState Event.pause).1
         [Event.terminate, Event.pause]).2 ∧
     (runEvents (runStep initialLoopState Event.pause).1
         [Event.terminate, Event.pause]).1.tickerRunning = false) :=
  ⟨by decide,
    C10_pause_is_permanent initialLoopState [Event.terminate, Event.pause]
      (by decide)⟩

end Egles
